import Mathlib

/-!
Shallow embedding of `linksender.py`, a command-line utility that validates a
YouTube link (single video / playlist / channel), fetches video metadata
through an external extraction library (`yt_dlp`), and forwards formatted
summaries to a fixed Telegram chat.

External collaborators (the metadata-extraction library and the messaging
transport) are modelled as oracle functions passed in as parameters; the
embedding covers exactly the control flow and data handling of the script
itself.  Python dictionaries are modelled as structures of `Option` fields
(`none` = key absent); Python truthiness of a string value (`if thumbnail:`,
`a or b`) is modelled explicitly as "present and non-empty".
-/

namespace LinkSender

/-- A shallow-listing entry produced by the first-phase (flat) extraction call
for playlists/channels.  The script consumes only the `url` and `id` keys of
such an entry (lines 112-121 of `linksender.py`). -/
structure Entry where
  url : Option String
  id : Option String
deriving DecidableEq, Repr

/-- A video metadata record returned by the extraction library.  The script
consumes the keys `title`, `webpage_url`, `url`, `id`, `thumbnail`,
`duration`, `upload_date` and, for collections, `entries`. -/
structure Info where
  title : Option String
  webpage_url : Option String
  url : Option String
  id : Option String
  thumbnail : Option String
  duration : Option Int
  upload_date : Option String
  entries : Option (List Entry)
deriving DecidableEq, Repr

/-- A record with every key absent; concrete test records are built from it. -/
def Info.empty : Info :=
  ⟨none, none, none, none, none, none, none, none⟩

/-! ## Formatter: `format_duration` (lines 54-62) -/

/-- Python's `f"{x:02d}"`: zero-pad to a minimum width of two characters.
Only a single non-negative digit needs padding (a negative single digit such
as `-5` already prints as two characters). -/
def pad2 (x : Int) : String :=
  if 0 ≤ x ∧ x < 10 then "0" ++ toString x else toString x

/-- `format_duration(seconds)` from lines 54-62.  Python's `divmod` with the
positive divisor 60 is floor division, which coincides with Euclidean
division (`/` and `%` on `Int` here, since the divisor is positive);
`if h:` is truthiness of the integer `h`, i.e. `h ≠ 0`. -/
def format_duration : Option Int → String
  | none => "Unknown"
  | some seconds =>
    let m := seconds / 60
    let s := seconds % 60
    let h := m / 60
    let m' := m % 60
    if h ≠ 0 then
      toString h ++ ":" ++ pad2 m' ++ ":" ++ pad2 s
    else
      toString m' ++ ":" ++ pad2 s

/-! ## Canonical URL derivation (line 136)

`video.get('webpage_url') or video.get('url') or "https://youtu.be/" + video.get('id', '')`.
Python's `or` falls through on a falsy value: both an absent key (`None`) and
a present empty string are skipped. -/

/-- Python `a or b` where `a` is an optional string: `b` is used when `a` is
absent or empty (falsy). -/
def pyOrStr (a : Option String) (b : String) : String :=
  match a with
  | some s => if s = "" then b else s
  | none => b

/-- The canonical video URL placed in the caption (line 136). -/
def canonicalUrl (video : Info) : String :=
  pyOrStr video.webpage_url (pyOrStr video.url ("https://youtu.be/" ++ video.id.getD ""))

/-! ## Formatter: `format_date` (lines 64-73)

The parsing/printing itself is done by the external `datetime` library
(`strptime` / `strftime`); it is modelled here for the two accepted input
shapes `YYYY-MM-DD` and `YYYYMMDD` (`strptime` requires a four-digit year, a
valid month/day, consumes the whole string, and rejects year 0; `strftime`
zero-pads the components).  Any other input raises and is mapped to
"Unknown" by the `except` clause. -/

def isLeapYear (y : Nat) : Bool :=
  (y % 4 == 0 && y % 100 != 0) || y % 400 == 0

def daysInMonth (y m : Nat) : Nat :=
  if m = 2 then (if isLeapYear y then 29 else 28)
  else if m = 4 ∨ m = 6 ∨ m = 9 ∨ m = 11 then 30
  else 31

def validYMD (y m d : Nat) : Bool :=
  1 ≤ y && 1 ≤ m && m ≤ 12 && 1 ≤ d && d ≤ daysInMonth y m

def allDigits (s : String) : Bool :=
  s.data.all Char.isDigit

/-- Zero-pad a natural number to a minimum width. -/
def padNat (w : Nat) (n : Nat) : String :=
  let s := toString n
  if s.length < w then String.mk (List.replicate (w - s.length) '0') ++ s else s

/-- Render a parsed date, `strftime('%Y-%m-%d')` style. -/
def renderYMD (y m d : Nat) : String :=
  padNat 4 y ++ "-" ++ padNat 2 m ++ "-" ++ padNat 2 d

/-- Parse per `strptime(date_str, '%Y-%m-%d')`: four-digit year, one- or
two-digit month and day, full consumption, calendar-valid date. -/
def parseDashed (date_str : String) : Option (Nat × Nat × Nat) :=
  match date_str.splitOn "-" with
  | [ys, ms, ds] =>
    if allDigits ys && allDigits ms && allDigits ds &&
        ys.length == 4 && 1 ≤ ms.length && ms.length ≤ 2 && 1 ≤ ds.length && ds.length ≤ 2 &&
        validYMD ys.toNat! ms.toNat! ds.toNat! then
      some (ys.toNat!, ms.toNat!, ds.toNat!)
    else none
  | _ => none

/-- Parse per `strptime(date_str, '%Y%m%d')` for the eight-digit shape the
metadata service emits: four-digit year, two-digit month, two-digit day. -/
def parseCompact (date_str : String) : Option (Nat × Nat × Nat) :=
  if allDigits date_str && date_str.length == 8 then
    let y := (date_str.take 4).toNat!
    let m := ((date_str.drop 4).take 2).toNat!
    let d := (date_str.drop 6).toNat!
    if validYMD y m d then some (y, m, d) else none
  else none

/-- `format_date(date_str)` from lines 64-73: choose the format by whether the
string contains a dash, normalise to `YYYY-MM-DD`, and fall back to
"Unknown" on any parse failure. -/
def format_date (date_str : String) : String :=
  if date_str.contains '-' then
    match parseDashed date_str with
    | some (y, m, d) => renderYMD y m d
    | none => "Unknown"
  else
    match parseCompact date_str with
    | some (y, m, d) => renderYMD y m d
    | none => "Unknown"

/-! ## Metadata fetcher: `fetch_videos_info` (lines 75-131)

The extraction library is the oracle `extract url flat`: the outcome of
`ydl.extract_info(url, download=False)` on a `YoutubeDL` whose
`extract_flat` option is `flat` (the other options are constants).  The
script builds one `YoutubeDL` with `extract_flat = (mode in {'2','3'})` and
uses that same object for the first-phase call and for every second-phase
per-entry call, so `flat` is determined once by `mode`.  Alongside the
Python return value `(videos, error)` the embedding records the list of
`(url, flat)` extraction calls issued, in order. -/

/-- Outcome of one `ydl.extract_info` call: either the call raises, or it
returns a record (Python `None` modelled as `none`). -/
inductive ExtractOutcome
  | raises
  | returns (info : Option Info)
deriving DecidableEq, Repr

abbrev Extractor := String → Bool → ExtractOutcome

def invalidLinkMsg : String := "❌ Invalid YouTube link"

def noVideosMsg : String := "⚠️ No videos found."

/-- Per-entry URL derivation (lines 113-121): a present `url` key composes
`https://youtu.be/<url>`, else a present `id` key composes
`https://youtu.be/<id>`, else the entry is skipped (`continue`). -/
def deriveUrl (e : Entry) : Option String :=
  match e.url with
  | some u => some ("https://youtu.be/" ++ u)
  | none =>
    match e.id with
    | some i => some ("https://youtu.be/" ++ i)
    | none => none

/-- The second-phase loop over listed entries (lines 112-128): for each entry
with a derivable URL, call `ydl.extract_info` on that URL; append the result
when the call returns a truthy record, and skip the entry when the call
raises or returns `None`.  Returns the collected records together with the
second-phase calls issued. -/
def fetchLoop (extract : Extractor) (flat : Bool) :
    List Entry → List Info × List (String × Bool)
  | [] => ([], [])
  | e :: rest =>
    match deriveUrl e with
    | none => fetchLoop extract flat rest
    | some videoUrl =>
      let r := fetchLoop extract flat rest
      match extract videoUrl flat with
      | .raises => (r.1, (videoUrl, flat) :: r.2)
      | .returns none => (r.1, (videoUrl, flat) :: r.2)
      | .returns (some vi) => (vi :: r.1, (videoUrl, flat) :: r.2)

/-- `fetch_videos_info(url, mode)` (lines 75-131), instrumented with the list
of extraction calls issued.  The first component is the Python return value:
`(videos, error)` where exactly one side is `none`. -/
def fetch_videos_info_t (extract : Extractor) (url mode : String) :
    (Option (List Info) × Option String) × List (String × Bool) :=
  let flat := mode == "2" || mode == "3"
  match extract url flat with
  | .raises => ((none, some invalidLinkMsg), [(url, flat)])
  | .returns none => ((none, some noVideosMsg), [(url, flat)])
  | .returns (some info) =>
    if mode == "1" then
      if info.title.isNone then ((none, some noVideosMsg), [(url, flat)])
      else ((some [info], none), [(url, flat)])
    else
      let entries := info.entries.getD []
      if entries.isEmpty then ((none, some noVideosMsg), [(url, flat)])
      else
        let r := fetchLoop extract flat entries
        if r.1.isEmpty then ((none, some noVideosMsg), (url, flat) :: r.2)
        else ((some r.1, none), (url, flat) :: r.2)

/-- The Python return value of `fetch_videos_info`. -/
def fetch_videos_info (extract : Extractor) (url mode : String) :
    Option (List Info) × Option String :=
  (fetch_videos_info_t extract url mode).1

/-! ## Notifier: `send_video_info` (lines 133-156)

The Telegram bot is the oracle `sendTg`: the outcome of one
`bot.send_photo` / `bot.send_message` call, either success or a raised
`TelegramError` (the transport-classified error the `except` clause
catches). -/

def TELEGRAM_CHAT_ID : String := "6956029558"

/-- One messaging-API call with its arguments. -/
inductive TgCall
  | sendPhoto (chat_id photo caption : String)
  | sendMessage (chat_id text : String)
deriving DecidableEq, Repr

inductive TgOutcome
  | ok
  | telegramError
deriving DecidableEq, Repr

abbrev Messenger := TgCall → TgOutcome

/-- The message caption composed at lines 142-145. -/
def mkCaption (video : Info) : String :=
  "🎬 Title: " ++ video.title.getD "Unknown Title" ++ "\n" ++
  "🔗 Link: " ++ canonicalUrl video ++ "\n" ++
  "⏱ Duration: " ++ format_duration video.duration ++ "\n" ++
  "📅 Date: " ++ format_date (video.upload_date.getD "")

/-- The single messaging call chosen at lines 147-153: `if thumbnail:` is
Python truthiness, so the photo path is taken exactly when the `thumbnail`
key is present with a non-empty value. -/
def send_call (video : Info) : TgCall :=
  match video.thumbnail with
  | some t =>
    if t = "" then .sendMessage TELEGRAM_CHAT_ID (mkCaption video)
    else .sendPhoto TELEGRAM_CHAT_ID t (mkCaption video)
  | none => .sendMessage TELEGRAM_CHAT_ID (mkCaption video)

/-- `send_video_info(video)` (lines 133-156), instrumented with the list of
messaging calls issued: returns `True` on success and `False` when the call
raises a `TelegramError`. -/
def send_video_info_t (sendTg : Messenger) (video : Info) : Bool × List TgCall :=
  match sendTg (send_call video) with
  | .ok => (true, [send_call video])
  | .telegramError => (false, [send_call video])

def send_video_info (sendTg : Messenger) (video : Info) : Bool :=
  (send_video_info_t sendTg video).1

/-! ## Link classifier: the regexes (lines 22-24) and `validate_link` (lines 45-52)

Each pattern is `(https?://)?(www\.)?<core>[\w-]+` applied with `re.match`,
i.e. anchored at the start of the string and matching a prefix only.  The
optional groups and the core alternation are embedded as explicit
alternative lists (the boolean result of `re.match` is exactly "some choice
of alternatives matches"), and the trailing `[\w-]+` matching a non-empty
prefix is equivalent to the next character being a word character or a dash.
`\w` is modelled over ASCII (the character classes exercised by the
patterns' inputs). -/

def isWordDashChar (c : Char) : Bool :=
  ('a' ≤ c && c ≤ 'z') || ('A' ≤ c && c ≤ 'Z') || ('0' ≤ c && c ≤ '9') || c = '_' || c = '-'

/-- Consume a literal from the front of the input, returning the remainder. -/
def dropLit : List Char → List Char → Option (List Char)
  | [], s => some s
  | _ :: _, [] => none
  | a :: as, c :: cs => if c = a then dropLit as cs else none

/-- Try each alternative literal, continuing with `k` on the remainder. -/
def matchAlts (alts : List (List Char)) (k : List Char → Bool) (s : List Char) : Bool :=
  alts.any fun a =>
    match dropLit a s with
    | some r => k r
    | none => false

/-- `[\w-]+` matching a non-empty prefix at this position. -/
def headWordDash : List Char → Bool
  | [] => false
  | c :: _ => isWordDashChar c

/-- `(https?://)?` -/
def schemeAlts : List (List Char) := [[], "http://".data, "https://".data]

/-- `(www\.)?` -/
def wwwAlts : List (List Char) := [[], "www.".data]

/-- `YOUTUBE_VIDEO_REGEX.match` (line 22). -/
def videoMatch (s : List Char) : Bool :=
  matchAlts schemeAlts (fun s1 =>
    matchAlts wwwAlts (fun s2 =>
      matchAlts ["youtube.com/watch?v=".data, "youtu.be/".data] headWordDash s2) s1) s

/-- `YOUTUBE_PLAYLIST_REGEX.match` (line 23). -/
def playlistMatch (s : List Char) : Bool :=
  matchAlts schemeAlts (fun s1 =>
    matchAlts wwwAlts (fun s2 =>
      matchAlts ["youtube.com/playlist?list=".data] headWordDash s2) s1) s

/-- `YOUTUBE_CHANNEL_REGEX.match` (line 24): `youtube\.com/(channel/|c/|user/)`. -/
def channelMatch (s : List Char) : Bool :=
  matchAlts schemeAlts (fun s1 =>
    matchAlts wwwAlts (fun s2 =>
      matchAlts ["youtube.com/channel/".data, "youtube.com/c/".data,
        "youtube.com/user/".data] headWordDash s2) s1) s

/-- `validate_link(link, mode)` (lines 45-52). -/
def validate_link (link mode : String) : Bool :=
  if mode = "1" then videoMatch link.data
  else if mode = "2" then playlistMatch link.data
  else if mode = "3" then channelMatch link.data
  else false

/-! ## Session loop, sending phase (lines 186-194)

The observable event trace of the `for` loop over fetched records: the
per-record status line, the send attempt itself (delegated to
`send_video_info`, abstracted to a boolean oracle), the warning printed on
failure, and the `time.sleep(0.5)` (500 ms).  On failure the loop body hits
`continue`, which skips the sleep. -/

inductive Ev
  /-- `print(f"➡️ Sending: [<title>]")` (line 188) -/
  | printedSending (title : String)
  /-- the `send_video_info(video)` call (line 189) -/
  | sendAttempt (video : Info)
  /-- `print("⚠️ Retry sending failed message.")` (line 191) -/
  | printedWarn
  /-- `time.sleep(0.5)` (line 194), in milliseconds -/
  | slept (ms : Nat)
deriving DecidableEq, Repr

/-- The sending phase of one `main` iteration (lines 186-194). -/
def sendPhase (send : Info → Bool) : List Info → List Ev
  | [] => []
  | video :: rest =>
    .printedSending (video.title.getD "Unknown Title") ::
    .sendAttempt video ::
    (if send video then .slept 500 :: sendPhase send rest
     else .printedWarn :: sendPhase send rest)

/-- The record attempted by an event, if it is a send attempt. -/
def evAttempt : Ev → Option Info
  | .sendAttempt v => some v
  | _ => none

def isSlept : Ev → Bool
  | .slept _ => true
  | _ => false

def isWarn : Ev → Bool
  | .printedWarn => true
  | _ => false

/-! ## Helper lemmas and concrete test fixtures -/

/-- The result of the second-phase attempt for one listed entry: `some` full
record when the entry has a derivable URL and the extraction call returns a
truthy record, `none` when the entry is skipped. -/
def secondPhase (extract : Extractor) (flat : Bool) (e : Entry) : Option Info :=
  (deriveUrl e).bind fun videoUrl =>
    match extract videoUrl flat with
    | .returns (some vi) => some vi
    | _ => none

theorem fetchLoop_fst (extract : Extractor) (flat : Bool) (es : List Entry) :
    (fetchLoop extract flat es).1 = es.filterMap (secondPhase extract flat) := by
  induction es with
  | nil => rfl
  | cons e rest ih =>
    simp only [fetchLoop, List.filterMap_cons, secondPhase]
    cases hd : deriveUrl e with
    | none => simpa [hd] using ih
    | some videoUrl =>
      cases hx : extract videoUrl flat with
      | raises => simpa [hd, hx] using ih
      | returns o => cases o <;> simpa [hd, hx] using ih

theorem fetchLoop_snd (extract : Extractor) (flat : Bool) (es : List Entry) :
    (fetchLoop extract flat es).2 =
      es.filterMap (fun e => (deriveUrl e).map (fun v => (v, flat))) := by
  induction es with
  | nil => rfl
  | cons e rest ih =>
    simp only [fetchLoop, List.filterMap_cons]
    cases hd : deriveUrl e with
    | none => simpa [hd] using ih
    | some videoUrl =>
      cases hx : extract videoUrl flat with
      | raises => simpa [hd, hx] using ih
      | returns o => cases o <;> simpa [hd, hx] using ih

/-- An extractor whose every call raises. -/
def exRaise : Extractor := fun _ _ => .raises

/-- An extractor whose every call returns `None` without raising. -/
def exNone : Extractor := fun _ _ => .returns none

/-- A full record carrying just a title and an id. -/
def mkVid (t : String) : Info :=
  { Info.empty with title := some t, id := some t }

/-!
### C1

Claim C1 says a raising first-phase call in collection mode yields
NoVideosFound.  The `except` clause at lines 89-90 covers the first-phase
call of every mode and returns the InvalidLink message, so the claim is
wrong on the raising branch; NoVideosFound is returned only when the call
succeeds but yields no record or no entries.
-/

/-- C1, counterexample: in Playlist mode with a first-phase extraction call
that raises, `fetch_videos_info` returns the InvalidLink message, not the
NoVideosFound message the claim requires. -/
theorem c1_counterexample :
    fetch_videos_info exRaise "L" "2" = (none, some invalidLinkMsg) ∧
    invalidLinkMsg ≠ noVideosMsg := by
  exact ⟨rfl, by decide⟩

/-- C1, amended: in collection mode (Playlist or Channel), a raising
first-phase extraction call makes the fetch return the InvalidLink failure
reason, while a first-phase call that succeeds but returns no record, or a
record with no entries, makes it return the NoVideosFound failure reason. -/
theorem c1_amended (extract : Extractor) (url mode : String)
    (hmode : mode = "2" ∨ mode = "3") :
    (extract url true = .raises →
      fetch_videos_info extract url mode = (none, some invalidLinkMsg)) ∧
    (extract url true = .returns none →
      fetch_videos_info extract url mode = (none, some noVideosMsg)) ∧
    (∀ info, extract url true = .returns (some info) → info.entries.getD [] = [] →
      fetch_videos_info extract url mode = (none, some noVideosMsg)) := by
  rcases hmode with h | h <;> subst h <;>
    refine ⟨fun hx => ?_, fun hx => ?_, fun info hx hempty => ?_⟩
  · simp [fetch_videos_info, fetch_videos_info_t, hx]
  · simp [fetch_videos_info, fetch_videos_info_t, hx]
  · simp [fetch_videos_info, fetch_videos_info_t, hx, hempty]
  · simp [fetch_videos_info, fetch_videos_info_t, hx]
  · simp [fetch_videos_info, fetch_videos_info_t, hx]
  · simp [fetch_videos_info, fetch_videos_info_t, hx, hempty]

/-- C1 witness: the amended claim applied to a raising extractor in Playlist
mode and to a `None`-returning extractor in Channel mode. -/
theorem c1_amended_witness :
    fetch_videos_info exRaise "L" "2" = (none, some invalidLinkMsg) ∧
    fetch_videos_info exNone "L" "3" = (none, some noVideosMsg) :=
  ⟨(c1_amended exRaise "L" "2" (Or.inl rfl)).1 rfl,
   (c1_amended exNone "L" "3" (Or.inr rfl)).2.1 rfl⟩

/-!
### C5
-/

/-- C5: in single-video mode the fetch issues exactly one extraction call,
for the given link with the shallow (`extract_flat`) option disabled; if the
call raises, it returns the InvalidLink message; if the returned record
lacks a title, it returns the NoVideosFound message; otherwise it returns
exactly that one record. -/
theorem c5_single_video_fetch (extract : Extractor) (url : String) :
    (fetch_videos_info_t extract url "1").2 = [(url, false)] ∧
    (extract url false = .raises →
      fetch_videos_info extract url "1" = (none, some invalidLinkMsg)) ∧
    (∀ info, extract url false = .returns (some info) → info.title = none →
      fetch_videos_info extract url "1" = (none, some noVideosMsg)) ∧
    (∀ info t, extract url false = .returns (some info) → info.title = some t →
      fetch_videos_info extract url "1" = (some [info], none)) := by
  refine ⟨?_, fun hx => ?_, fun info hx ht => ?_, fun info t hx ht => ?_⟩
  · rcases hx : extract url false with _ | o
    · simp [fetch_videos_info_t, hx]
    · rcases o with _ | info
      · simp [fetch_videos_info_t, hx]
      · by_cases ht : info.title.isNone <;> simp [fetch_videos_info_t, hx, ht]
  · simp [fetch_videos_info, fetch_videos_info_t, hx]
  · simp [fetch_videos_info, fetch_videos_info_t, hx, ht, Option.isNone]
  · simp [fetch_videos_info, fetch_videos_info_t, hx, ht, Option.isNone]

/-- C5 witness: the three outcomes at concrete extractors, each via
`c5_single_video_fetch`. -/
theorem c5_witness :
    (fetch_videos_info_t exRaise "V" "1").2 = [("V", false)] ∧
    fetch_videos_info exRaise "V" "1" = (none, some invalidLinkMsg) ∧
    fetch_videos_info (fun _ _ => .returns (some Info.empty)) "V" "1" =
      (none, some noVideosMsg) ∧
    fetch_videos_info (fun _ _ => .returns (some (mkVid "t"))) "V" "1" =
      (some [mkVid "t"], none) :=
  ⟨(c5_single_video_fetch exRaise "V").1,
   (c5_single_video_fetch exRaise "V").2.1 rfl,
   (c5_single_video_fetch _ "V").2.2.1 Info.empty rfl rfl,
   (c5_single_video_fetch _ "V").2.2.2 (mkVid "t") "t" rfl rfl⟩

/-!
### C10
-/

/-- C10: in every mode, an extraction call that completes without raising
but returns no record at all makes the fetch return the NoVideosFound
message, which differs from the InvalidLink message. -/
theorem c10_none_record_is_no_videos (extract : Extractor) (url mode : String)
    (hx : extract url (mode == "2" || mode == "3") = .returns none) :
    fetch_videos_info extract url mode = (none, some noVideosMsg) ∧
    noVideosMsg ≠ invalidLinkMsg := by
  refine ⟨?_, by decide⟩
  simp [fetch_videos_info, fetch_videos_info_t, hx]

/-- C10 witness: a `None`-returning extractor in single-video mode and in
Playlist mode. -/
theorem c10_witness :
    (fetch_videos_info exNone "V" "1" = (none, some noVideosMsg) ∧
      noVideosMsg ≠ invalidLinkMsg) ∧
    (fetch_videos_info exNone "L" "2" = (none, some noVideosMsg) ∧
      noVideosMsg ≠ invalidLinkMsg) :=
  ⟨c10_none_record_is_no_videos exNone "V" "1" rfl,
   c10_none_record_is_no_videos exNone "L" "2" rfl⟩

/-!
### C4 and C2: collection-mode characterization
-/

/-- In collection mode with a successful first-phase call and a non-empty
listing, the fetch result and the call log are the ordered `filterMap`s of
the second-phase attempts over the listed entries. -/
theorem fetch_collection_characterization (extract : Extractor) (url mode : String)
    (info : Info) (hmode : mode = "2" ∨ mode = "3")
    (hx : extract url true = .returns (some info))
    (hne : info.entries.getD [] ≠ []) :
    (fetch_videos_info extract url mode =
      if (info.entries.getD []).filterMap (secondPhase extract true) = [] then
        (none, some noVideosMsg)
      else
        (some ((info.entries.getD []).filterMap (secondPhase extract true)), none)) ∧
    (fetch_videos_info_t extract url mode).2 =
      (url, true) ::
        (info.entries.getD []).filterMap
          (fun e => (deriveUrl e).map (fun v => (v, true))) := by
  have hloop1 := fetchLoop_fst extract true (info.entries.getD [])
  have hloop2 := fetchLoop_snd extract true (info.entries.getD [])
  rcases hmode with h | h <;> subst h <;>
    constructor <;>
    (simp [fetch_videos_info, fetch_videos_info_t, hx, hne, hloop1, hloop2,
      List.isEmpty_iff]
     split <;> rfl)

/-- C4: in collection mode, once the first-phase call has produced a
non-empty listing, every listed entry whose second-phase extraction raises
or returns no record is skipped silently, entries with neither a `url` nor
an `id` key are skipped silently, and the fetch returns exactly the
successfully fetched records in original listing order; if every entry
fails, the fetch returns the NoVideosFound message.  The call log shows
each entry with a derivable URL is attempted exactly once (no retries). -/
theorem c4_collection_skip_and_order (extract : Extractor) (url mode : String)
    (info : Info) (hmode : mode = "2" ∨ mode = "3")
    (hx : extract url true = .returns (some info))
    (hne : info.entries.getD [] ≠ []) :
    (fetch_videos_info extract url mode =
      if (info.entries.getD []).filterMap (secondPhase extract true) = [] then
        (none, some noVideosMsg)
      else
        (some ((info.entries.getD []).filterMap (secondPhase extract true)), none)) ∧
    (fetch_videos_info_t extract url mode).2 =
      (url, true) ::
        (info.entries.getD []).filterMap
          (fun e => (deriveUrl e).map (fun v => (v, true))) :=
  fetch_collection_characterization extract url mode info hmode hx hne

/-- A five-entry listing: entries carry ids `a`, `b`, a `url` key `c`, id
`d`, and one entry with neither key. -/
def listing5 : Info :=
  { Info.empty with
    entries := some [⟨none, some "a"⟩, ⟨none, some "b"⟩, ⟨some "c", none⟩,
      ⟨none, some "d"⟩, ⟨none, none⟩] }

/-- Extractor for the 3-of-5-fail scenario: the listing call returns
`listing5`; the second-phase call succeeds for entries `b` and `d`, raises
for `a`, and returns no record for `c`. -/
def ex5 : Extractor := fun u _ =>
  if u == "L" then .returns (some listing5)
  else if u == "https://youtu.be/b" then .returns (some (mkVid "b"))
  else if u == "https://youtu.be/d" then .returns (some (mkVid "d"))
  else if u == "https://youtu.be/a" then .raises
  else .returns none

/-- Extractor for the all-fail scenario: every second-phase call raises. -/
def exAllFail : Extractor := fun u _ =>
  if u == "L" then .returns (some listing5) else .raises

/-- C4 witness: with 3 of 5 listed entries failing, the fetch yields exactly
the 2 successful records in listing order; with all 5 failing it yields the
NoVideosFound message. -/
theorem c4_witness :
    fetch_videos_info ex5 "L" "2" = (some [mkVid "b", mkVid "d"], none) ∧
    fetch_videos_info exAllFail "L" "2" = (none, some noVideosMsg) := by
  constructor
  · have h := (c4_collection_skip_and_order ex5 "L" "2" listing5
      (Or.inl rfl) rfl (by decide)).1
    rw [h]; decide
  · have h := (c4_collection_skip_and_order exAllFail "L" "2" listing5
      (Or.inl rfl) rfl (by decide)).1
    rw [h]; decide

/-!
### C2

Claim C2 says the second-phase per-entry calls are made with shallow
extraction disabled.  The script builds a single `YoutubeDL` whose
`extract_flat` option is `True` for collection modes (line 81) and reuses
that same object for the second-phase calls (line 123), so the flag stays
enabled; what the code does do is issue one direct per-video extraction
call per derivable entry, with the same options as the listing call.
-/

/-- A one-entry listing whose entry carries id `abc`. -/
def listingC2 : Info :=
  { Info.empty with entries := some [⟨none, some "abc"⟩] }

/-- Extractor for the C2 scenario: the listing call returns `listingC2` and
every other call returns an (empty) record. -/
def exC2 : Extractor := fun u _ =>
  if u == "U" then .returns (some listingC2)
  else .returns (some Info.empty)

/-- C2, counterexample: in Playlist mode the call log is the listing call
followed by one per-entry call, and it is not the case that the per-entry
calls carry a disabled shallow-extraction flag — the flag is still `true`. -/
theorem c2_counterexample :
    (fetch_videos_info_t exC2 "U" "2").2 =
      [("U", true), ("https://youtu.be/abc", true)] ∧
    ¬ (∀ c ∈ (fetch_videos_info_t exC2 "U" "2").2.drop 1, c.2 = false) :=
  ⟨rfl, by decide⟩

/-- C2, amended: in collection mode, for every listed entry with a derivable
per-video URL, the fetcher issues a second extraction call for that URL
using the same extractor options as the first phase — so with the shallow
(`extract_flat`) flag still enabled, not disabled. -/
theorem c2_amended (extract : Extractor) (url mode : String) (info : Info)
    (e : Entry) (v : String) (hmode : mode = "2" ∨ mode = "3")
    (hx : extract url true = .returns (some info))
    (he : e ∈ info.entries.getD []) (hv : deriveUrl e = some v) :
    (v, true) ∈ (fetch_videos_info_t extract url mode).2 := by
  have hlog := (fetch_collection_characterization extract url mode info hmode hx
    (List.ne_nil_of_mem he)).2
  rw [hlog]
  exact List.mem_cons_of_mem _
    (List.mem_filterMap.mpr ⟨e, he, by rw [hv]; rfl⟩)

/-- C2 witness: the amended claim applied to the one-entry scenario. -/
theorem c2_amended_witness :
    ("https://youtu.be/abc", true) ∈ (fetch_videos_info_t exC2 "U" "2").2 :=
  c2_amended exC2 "U" "2" listingC2 ⟨none, some "abc"⟩ "https://youtu.be/abc"
    (Or.inl rfl) rfl (by decide) rfl

/-!
### C3

Claim C3 says the half-second delay is inserted between consecutive send
attempts even after a failed attempt.  On a failed attempt the loop body
hits `continue` (line 193), which skips the `time.sleep(0.5)` at line 194,
so the delay is only inserted after successful attempts.
-/

/-- C3, counterexample: with a send oracle that always fails and two
records, both records are attempted, yet the trace contains no sleep event
at all — in particular no delay between the two consecutive attempts. -/
theorem c3_counterexample :
    (sendPhase (fun _ => false) [mkVid "a", mkVid "b"]).filterMap evAttempt =
      [mkVid "a", mkVid "b"] ∧
    (sendPhase (fun _ => false) [mkVid "a", mkVid "b"]).countP isSlept = 0 := by
  decide

/-- C3, amended: the sending phase attempts every fetched record exactly
once, in order, never aborting or retrying; a failed send prints the
warning line (one warning per failure) and proceeds to the next record; the
fixed half-second delay is inserted only after a successful send attempt,
not after a failed one (one sleep per success). -/
theorem c3_amended (send : Info → Bool) (videos : List Info) :
    (sendPhase send videos).filterMap evAttempt = videos ∧
    (sendPhase send videos).countP isSlept = (videos.filter send).length ∧
    (sendPhase send videos).countP isWarn =
      (videos.filter (fun v => ! send v)).length := by
  induction videos with
  | nil => simp [sendPhase]
  | cons v rest ih =>
    obtain ⟨ih1, ih2, ih3⟩ := ih
    by_cases h : send v <;>
      simp [sendPhase, h, evAttempt, isSlept, isWarn, ih1, ih2, ih3,
        List.filterMap_cons, List.countP_cons, List.filter_cons]

/-!
### C6
-/

/-- A messenger whose every call raises `TelegramError`. -/
def failTg : Messenger := fun _ => .telegramError

/-- A messenger whose every call succeeds. -/
def okTg : Messenger := fun _ => .ok

/-- C6: the notifier sends a photo-type message with the thumbnail as image
source and the caption attached exactly when the thumbnail is present and
non-empty, and a text-only message with the caption as body otherwise; a
transport-classified (`TelegramError`) failure yields `false` without the
exception escaping (the embedding is a total function), a successful call
yields `true`, and exactly one messaging call is issued — no retry. -/
theorem c6_notifier (sendTg : Messenger) (video : Info) :
    (∀ t, video.thumbnail = some t → t ≠ "" →
      send_call video = TgCall.sendPhoto TELEGRAM_CHAT_ID t (mkCaption video)) ∧
    ((video.thumbnail = none ∨ video.thumbnail = some "") →
      send_call video = TgCall.sendMessage TELEGRAM_CHAT_ID (mkCaption video)) ∧
    (sendTg (send_call video) = .telegramError →
      send_video_info sendTg video = false) ∧
    (sendTg (send_call video) = .ok → send_video_info sendTg video = true) ∧
    (send_video_info_t sendTg video).2 = [send_call video] := by
  refine ⟨fun t ht hne => ?_, fun h0 => ?_, fun hf => ?_, fun hk => ?_, ?_⟩
  · simp [send_call, ht, hne]
  · rcases h0 with h | h <;> simp [send_call, h]
  · simp [send_video_info, send_video_info_t, hf]
  · simp [send_video_info, send_video_info_t, hk]
  · cases hx : sendTg (send_call video) <;> simp [send_video_info_t, hx]

/-- C6 witness: a record with a non-empty thumbnail takes the photo path, a
record with no thumbnail takes the text path, a failing transport yields
`false`, a succeeding one `true`. -/
theorem c6_witness :
    send_call { Info.empty with thumbnail := some "T" } =
      TgCall.sendPhoto TELEGRAM_CHAT_ID "T"
        (mkCaption { Info.empty with thumbnail := some "T" }) ∧
    send_call Info.empty =
      TgCall.sendMessage TELEGRAM_CHAT_ID (mkCaption Info.empty) ∧
    send_video_info failTg Info.empty = false ∧
    send_video_info okTg Info.empty = true :=
  ⟨(c6_notifier failTg { Info.empty with thumbnail := some "T" }).1 "T" rfl
      (by decide),
   (c6_notifier failTg Info.empty).2.1 (Or.inl rfl),
   (c6_notifier failTg Info.empty).2.2.1 rfl,
   (c6_notifier okTg Info.empty).2.2.2.1 rfl⟩

/-!
### C8

Claim C8 says the canonical URL is the `webpage_url` field if present, else
`url` if present, else synthesized from `id`.  Line 136 chains Python `or`,
which falls through on any falsy value: a key that is present with an empty
string is skipped just like an absent key, so "present" must be "present
and non-empty".
-/

/-- A record whose `webpage_url` key is present but empty. -/
def recWp : Info :=
  { Info.empty with webpage_url := some "", url := some "https://example.com/v" }

/-- C8, counterexample: on a record whose `webpage_url` is present (with the
empty value), the derived canonical URL is the `url` field, not the present
`webpage_url` field the claim requires. -/
theorem c8_counterexample :
    recWp.webpage_url = some "" ∧
    canonicalUrl recWp = "https://example.com/v" ∧
    canonicalUrl recWp ≠ "" :=
  ⟨rfl, rfl, by decide⟩

/-- C8, amended: the canonical URL is the `webpage_url` field if present and
non-empty, else the `url` field if present and non-empty, else the
synthesized string `https://youtu.be/` followed by the `id` field (empty
when `id` is absent). -/
theorem c8_amended (video : Info) :
    (∀ w, video.webpage_url = some w → w ≠ "" → canonicalUrl video = w) ∧
    ((video.webpage_url = none ∨ video.webpage_url = some "") →
      ∀ u, video.url = some u → u ≠ "" → canonicalUrl video = u) ∧
    ((video.webpage_url = none ∨ video.webpage_url = some "") →
      (video.url = none ∨ video.url = some "") →
      canonicalUrl video = "https://youtu.be/" ++ video.id.getD "") := by
  refine ⟨fun w hw hne => ?_, fun h0 u hu hne => ?_, fun h0 h1 => ?_⟩
  · simp [canonicalUrl, pyOrStr, hw, hne]
  · rcases h0 with h | h <;> simp [canonicalUrl, pyOrStr, h, hu, hne]
  · rcases h0 with h | h <;> rcases h1 with h' | h' <;>
      simp [canonicalUrl, pyOrStr, h, h']

/-- A record carrying only `id = "abc123"`. -/
def recIdOnly : Info := { Info.empty with id := some "abc123" }

/-- C8 witness: the spec's concrete example, via the amended claim. -/
theorem c8_amended_witness :
    canonicalUrl recIdOnly = "https://youtu.be/abc123" :=
  ((c8_amended recIdOnly).2.2 (Or.inl rfl) (Or.inl rfl)).trans rfl

/-!
### C9

Claim C9 says the `H:MM:SS` form is used exactly when hours > 0.  Line 59
tests Python truthiness `if h:`, i.e. hours ≠ 0; for a negative duration the
hour component of the floor decomposition is negative and non-zero, so the
code renders `H:MM:SS` with a negative hour where the claim requires `M:SS`.
-/

/-- C9, counterexample: at -3600 seconds the floor decomposition gives
hours = -1, minutes = 0, seconds = 0; hours > 0 fails, so the claim requires
the `M:SS` rendering "0:00", but the code renders "-1:00:00". -/
theorem c9_counterexample :
    format_duration (some (-3600)) = "-1:00:00" ∧
    format_duration (some (-3600)) ≠ "0:00" :=
  ⟨rfl, by decide⟩

/-- C9, amended: `format_duration` returns "Unknown" for an absent input,
and for every integer number of seconds decomposes it by floor division
(seconds = 60·minutes + remainder, minutes = 60·hours + remainder, with
both remainders in [0, 60)), rendering `H:MM:SS` when hours ≠ 0 (Python
truthiness, not hours > 0) and otherwise `M:SS`, minutes unpadded and
seconds zero-padded to two digits; in particular `format_duration 0 =
"0:00"`, `format_duration 65 = "1:05"`, `format_duration 3725 =
"1:02:05"`. -/
theorem c9_amended (sec : Int) :
    format_duration none = "Unknown" ∧
    format_duration (some 0) = "0:00" ∧
    format_duration (some 65) = "1:05" ∧
    format_duration (some 3725) = "1:02:05" ∧
    sec = 60 * (sec / 60) + sec % 60 ∧
    sec / 60 = 60 * (sec / 60 / 60) + (sec / 60) % 60 ∧
    0 ≤ sec % 60 ∧ sec % 60 < 60 ∧
    0 ≤ (sec / 60) % 60 ∧ (sec / 60) % 60 < 60 ∧
    format_duration (some sec) =
      (if sec / 60 / 60 ≠ 0 then
        toString (sec / 60 / 60) ++ ":" ++ pad2 ((sec / 60) % 60)
          ++ ":" ++ pad2 (sec % 60)
      else
        toString ((sec / 60) % 60) ++ ":" ++ pad2 (sec % 60)) := by
  refine ⟨rfl, rfl, rfl, rfl, ?_, ?_, ?_, ?_, ?_, ?_, rfl⟩ <;> omega

/-!
### C7
-/

theorem dropLit_append (a : List Char) :
    ∀ s t r, dropLit a s = some r → dropLit a (s ++ t) = some (r ++ t) := by
  induction a with
  | nil => intro s t r h; simp [dropLit] at h; simp [dropLit, h]
  | cons x xs ih =>
    intro s t r h
    cases s with
    | nil => simp [dropLit] at h
    | cons c cs =>
      simp only [dropLit] at h ⊢
      by_cases hc : c = x
      · simp only [hc, if_pos rfl] at h ⊢
        exact ih cs t r h
      · simp [hc] at h

theorem headWordDash_append (s t : List Char) (h : headWordDash s = true) :
    headWordDash (s ++ t) = true := by
  cases s with
  | nil => simp [headWordDash] at h
  | cons c cs => simpa [headWordDash] using h

theorem matchAlts_append (alts : List (List Char)) (k : List Char → Bool)
    (hk : ∀ s t, k s = true → k (s ++ t) = true) (s t : List Char)
    (h : matchAlts alts k s = true) : matchAlts alts k (s ++ t) = true := by
  simp only [matchAlts, List.any_eq_true] at h ⊢
  obtain ⟨a, ha, hmatch⟩ := h
  refine ⟨a, ha, ?_⟩
  cases hd : dropLit a s with
  | none => simp [hd] at hmatch
  | some r =>
    rw [hd] at hmatch
    rw [dropLit_append a s t r hd]
    exact hk r t hmatch

/-- Trailing content cannot break a successful video-pattern match. -/
theorem videoMatch_append (s t : List Char) (h : videoMatch s = true) :
    videoMatch (s ++ t) = true := by
  refine matchAlts_append _ _ (fun s1 t1 h1 => ?_) s t h
  refine matchAlts_append _ _ (fun s2 t2 h2 => ?_) s1 t1 h1
  exact matchAlts_append _ _ headWordDash_append s2 t2 h2

/-- Trailing content cannot break a successful playlist-pattern match. -/
theorem playlistMatch_append (s t : List Char) (h : playlistMatch s = true) :
    playlistMatch (s ++ t) = true := by
  refine matchAlts_append _ _ (fun s1 t1 h1 => ?_) s t h
  refine matchAlts_append _ _ (fun s2 t2 h2 => ?_) s1 t1 h1
  exact matchAlts_append _ _ headWordDash_append s2 t2 h2

/-- Trailing content cannot break a successful channel-pattern match. -/
theorem channelMatch_append (s t : List Char) (h : channelMatch s = true) :
    channelMatch (s ++ t) = true := by
  refine matchAlts_append _ _ (fun s1 t1 h1 => ?_) s t h
  refine matchAlts_append _ _ (fun s2 t2 h2 => ?_) s1 t1 h1
  exact matchAlts_append _ _ headWordDash_append s2 t2 h2

/-- C7: link validation is a prefix match anchored at the start of the
string — a string that validates still validates with arbitrary trailing
content appended — and validation returns `false` for every mode value
other than the three link modes, whatever the input string. -/
theorem c7_validate_prefix_anchored (link trailing mode : String) :
    (validate_link link mode = true →
      validate_link (link ++ trailing) mode = true) ∧
    (mode ≠ "1" → mode ≠ "2" → mode ≠ "3" → validate_link link mode = false) := by
  have e1 : ∀ l : String, validate_link l "1" = videoMatch l.data := fun _ => rfl
  have e2 : ∀ l : String, validate_link l "2" = playlistMatch l.data := fun _ => rfl
  have e3 : ∀ l : String, validate_link l "3" = channelMatch l.data := fun _ => rfl
  constructor
  · intro h
    by_cases h1 : mode = "1"
    · subst h1
      rw [e1] at h
      rw [e1, String.data_append]
      exact videoMatch_append _ _ h
    · by_cases h2 : mode = "2"
      · subst h2
        rw [e2] at h
        rw [e2, String.data_append]
        exact playlistMatch_append _ _ h
      · by_cases h3 : mode = "3"
        · subst h3
          rw [e3] at h
          rw [e3, String.data_append]
          exact channelMatch_append _ _ h
        · simp [validate_link, h1, h2, h3] at h
  · intro h1 h2 h3
    simp [validate_link, h1, h2, h3]

/-- C7 witness: a valid single-video URL still validates with trailing
garbage appended; a mode value outside the three link modes validates
nothing; concretely, the two spec-mandated single-video shapes validate in
SingleVideo mode while a playlist URL does not. -/
theorem c7_witness :
    validate_link ("https://youtu.be/dQw4w9WgXcQ" ++ " trailing garbage") "1" = true ∧
    validate_link "https://www.youtube.com/watch?v=dQw4w9WgXcQ" "7" = false ∧
    validate_link "https://www.youtube.com/watch?v=dQw4w9WgXcQ" "1" = true ∧
    validate_link "https://www.youtube.com/playlist?list=PL123" "1" = false :=
  ⟨(c7_validate_prefix_anchored "https://youtu.be/dQw4w9WgXcQ" " trailing garbage" "1").1
      (by decide),
   (c7_validate_prefix_anchored "https://www.youtube.com/watch?v=dQw4w9WgXcQ" "" "7").2
      (by decide) (by decide) (by decide),
   by decide, by decide⟩

end LinkSender
